import Mathlib

/-!
Verification of the brie_daw audio core (src/brie_daw/src/audio.rs) against
its natural-language specification.

Shallow embedding conventions:
* `i16` samples are modelled as `Int` (their numeric value); `u16`/`u32`
  header fields are modelled as `Nat` with an explicit `% 2^16` / `% 2^32`
  wherever the Rust arithmetic can wrap (release-mode two's-complement
  wrapping semantics).
* Rust methods taking `&mut self` are embedded in state-passing style: they
  return a pair of the declared result and the state of `self` after the
  call.
* `Vec<i16>` is `List Int`; iterator pipelines (`zip`, `map`, `collect`)
  are the corresponding `List` operations, which share their truncating
  `zip` semantics.
-/

namespace BrieDaw

/-- Rust's `Range<usize>`; the field `stop` models Rust's `end`
(a reserved word in Lean). -/
structure Range where
  start : Nat
  stop : Nat
deriving DecidableEq

/-- `Range::contains` for `Range<usize>`: `start <= n && n < end`. -/
def Range.contains (r : Range) (n : Nat) : Bool :=
  decide (r.start ≤ n) && decide (n < r.stop)

/-- `iter_mask(range) = (0..range.end).map(|n| range.contains(&n))`:
a finite sequence of `range.end` booleans. -/
def iter_mask (range : Range) : List Bool :=
  (List.range range.stop).map fun n => range.contains n

/-- `apply_conditional_map`, instantiated at `I = Vec<i16>`, `O = Vec<i16>`:
`into_iterator.clone().into_iter().zip(iter_mask(range)).map(|(m, b)| if b { f(m) } else { m }).collect()`.
Note Rust's `zip` (like `List.zip`) truncates to the shorter operand. -/
def apply_conditional_map (l : List Int) (range : Range) (f : Int → Int) : List Int :=
  (l.zip (iter_mask range)).map fun m => if m.2 then f m.1 else m.1

/-- `WavSettings { channel_count: u16, sample_rate: u32 }`. -/
structure WavSettings where
  channel_count : Nat
  sample_rate : Nat
deriving DecidableEq

/-- `SoundData { wav_settings: WavSettings, samples: Vec<i16> }`. -/
structure SoundData where
  wav_settings : WavSettings
  samples : List Int
deriving DecidableEq

/-- `SoundData::new`. -/
def SoundData.new (wav_settings : WavSettings) : SoundData :=
  { wav_settings := wav_settings, samples := [] }

/-- `SoundData::set_sample(&mut self, index, channel, new_sample) -> bool`,
in state-passing style: returns `(result, self after the call)`.
The Rust body computes `index * channel_count + channel`, then
`samples.get_mut(index)`: `Some` exactly when the flat offset is below the
current length, in which case the element is overwritten. -/
def SoundData.set_sample (s : SoundData) (index channel : Nat) (new_sample : Int) :
    Bool × SoundData :=
  let idx := index * s.wav_settings.channel_count + channel
  if idx < s.samples.length then
    (true, { s with samples := s.samples.set idx new_sample })
  else
    (false, s)

/-- `ConditionalMappable::conditional_map for SoundData`
(`fn conditional_map(&mut self, range, f) -> Self`), in state-passing style:
returns `(the freshly built SoundData, self after the call)`. The Rust body
only reads `self.wav_settings` and `&self.samples`, so `self` is returned
unmodified. -/
def SoundData.conditional_map (s : SoundData) (range : Range) (f : Int → Int) :
    SoundData × SoundData :=
  ({ wav_settings := s.wav_settings,
     samples := apply_conditional_map s.samples range f }, s)

/-- `WavHeader` (all integer fields `Nat`-modelled; 4-byte ASCII tags as
byte lists). -/
structure WavHeader where
  riff : List Nat
  file_size : Nat
  wave : List Nat
  fmt : List Nat
  format_size : Nat
  format_type : Nat
  channel_count : Nat
  sample_rate : Nat
  byte_rate : Nat
  bytes_per_chunk : Nat
  bits_per_sample : Nat
  data : List Nat
  data_size : Nat
deriving DecidableEq

/-- `WavHeader::RIFF = *b"RIFF"`. -/
def WavHeader.RIFF : List Nat := [82, 73, 70, 70]

/-- `WavHeader::WAVE = *b"WAVE"`. -/
def WavHeader.WAVE : List Nat := [87, 65, 86, 69]

/-- `WavHeader::FMT = *b"fmt "`. -/
def WavHeader.FMT : List Nat := [102, 109, 116, 32]

/-- `WavHeader::DATA = *b"data"`. -/
def WavHeader.DATA : List Nat := [100, 97, 116, 97]

/-- `WavHeader::FORMAT_SIZE = 16`. -/
def WavHeader.FORMAT_SIZE : Nat := 16

/-- `WavHeader::FORMAT_TYPE = 1`. -/
def WavHeader.FORMAT_TYPE : Nat := 1

/-- `WavHeader::HEADER_SIZE = 44`. -/
def WavHeader.HEADER_SIZE : Nat := 44

/-- `WavHeader::BYTES_PER_SAMPLE = 2` (a `u16`). -/
def WavHeader.BYTES_PER_SAMPLE : Nat := 2

/-- `WavHeader::new(file_size: u32, wav_settings)`. Wrapping (`% 2^32`,
`% 2^16`) is made explicit wherever the Rust `u32`/`u16` arithmetic can
overflow; in particular `data_size: file_size - Self::HEADER_SIZE` is the
wrapping `u32` subtraction `(file_size + 2^32 - 44) % 2^32`, which
underflows whenever `file_size < 44` (release-mode wrap; a debug build
panics there). -/
def WavHeader.new (file_size : Nat) (wav_settings : WavSettings) : WavHeader :=
  { riff := WavHeader.RIFF
    file_size := file_size
    wave := WavHeader.WAVE
    fmt := WavHeader.FMT
    format_size := WavHeader.FORMAT_SIZE
    format_type := WavHeader.FORMAT_TYPE
    channel_count := wav_settings.channel_count
    sample_rate := wav_settings.sample_rate
    byte_rate :=
      wav_settings.sample_rate * WavHeader.BYTES_PER_SAMPLE
        * wav_settings.channel_count % 2 ^ 32
    bytes_per_chunk := WavHeader.BYTES_PER_SAMPLE * wav_settings.channel_count % 2 ^ 16
    bits_per_sample := WavHeader.BYTES_PER_SAMPLE * 8
    data := WavHeader.DATA
    data_size := (file_size + 2 ^ 32 - WavHeader.HEADER_SIZE) % 2 ^ 32 }

/-- `WavFile { header: WavHeader, samples: Vec<i16> }`. -/
structure WavFile where
  header : WavHeader
  samples : List Int
deriving DecidableEq

/-- `WavFile::new(sound_data)`: note the Rust source passes
`sound_data.samples.len() as u32` — the number of samples — as the
`file_size` argument of `WavHeader::new` (the `as u32` cast truncates,
hence the `% 2^32`). -/
def WavFile.new (sound_data : SoundData) : WavFile :=
  { header := WavHeader.new (sound_data.samples.length % 2 ^ 32) sound_data.wav_settings
    samples := sound_data.samples }

/-- Little-endian byte encoding of a `u16` value. -/
def u16le (n : Nat) : List Nat :=
  [n % 256, n / 256 % 256]

/-- Little-endian byte encoding of a `u32` value. -/
def u32le (n : Nat) : List Nat :=
  [n % 256, n / 256 % 256, n / 65536 % 256, n / 16777216 % 256]

/-- Little-endian byte encoding of a `u64` value. -/
def u64le (n : Nat) : List Nat :=
  [n % 256, n / 2 ^ 8 % 256, n / 2 ^ 16 % 256, n / 2 ^ 24 % 256,
   n / 2 ^ 32 % 256, n / 2 ^ 40 % 256, n / 2 ^ 48 % 256, n / 2 ^ 56 % 256]

/-- Little-endian two's-complement byte encoding of an `i16` sample. -/
def i16le (v : Int) : List Nat :=
  u16le (v % 2 ^ 16).toNat

/-- `bincode::serialize` of a `WavHeader` (bincode 1.x defaults: fixed-width
little-endian integers, `[u8; 4]` arrays as 4 raw bytes, fields in
declaration order). -/
def serializeWavHeader (h : WavHeader) : List Nat :=
  h.riff ++ u32le h.file_size ++ h.wave ++ h.fmt ++ u32le h.format_size
    ++ u16le h.format_type ++ u16le h.channel_count ++ u32le h.sample_rate
    ++ u32le h.byte_rate ++ u16le h.bytes_per_chunk ++ u16le h.bits_per_sample
    ++ h.data ++ u32le h.data_size

/-- `bincode::serialize` of a `WavFile`: the header followed by the samples
vector (bincode 1.x serializes a `Vec` as a `u64` length prefix followed by
the elements). This is the byte sequence `WavFile::export` computes before
writing. -/
def serializeWavFile (w : WavFile) : List Nat :=
  serializeWavHeader w.header ++ u64le w.samples.length
    ++ (w.samples.map i16le).flatten

/-- `WavFile::export(&self, file) -> Result<(), ExportError>`: serializes
`self` with bincode and `write_all`s the bytes to the destination. The
destination is modelled as the list of bytes already written to it; a
successful export leaves it extended by `serializeWavFile self`.
(Encoding/IO failures come from the external collaborators and carry no
bytes of their own.) -/
def WavFile.exportTo (w : WavFile) (dest : List Nat) : List Nat :=
  dest ++ serializeWavFile w

/-! ## Helper lemmas -/

/-- The mask produced by `iter_mask` at position `p`: defined (as
`range.contains p`) exactly for `p < range.end`. -/
theorem iter_mask_get? (r : Range) (p : Nat) :
    (iter_mask r).get? p = if p < r.stop then some (r.contains p) else none := by
  unfold iter_mask
  rw [List.get?_map]
  split
  · rw [List.get?_range (by assumption)]
    rfl
  · rw [List.get?_eq_none.mpr (by simpa using Nat.not_lt.mp (by assumption))]
    rfl

/-- Pointwise description of `apply_conditional_map`: position `p` of the
output exists exactly when `p` is below both the input length and
`range.end` (Rust's `zip` truncates to the shorter iterator), and holds
`f v` or `v` according to range membership. -/
theorem apply_conditional_map_get? (l : List Int) (r : Range) (f : Int → Int) (p : Nat) :
    (apply_conditional_map l r f).get? p =
      (l.get? p).bind fun v =>
        if p < r.stop then some (if r.start ≤ p then f v else v) else none := by
  unfold apply_conditional_map
  rw [List.get?_map]
  rw [show l.zip (iter_mask r) = List.zipWith Prod.mk l (iter_mask r) from rfl]
  rw [List.get?_zipWith', iter_mask_get?]
  cases hl : l.get? p with
  | none => rfl
  | some v =>
    by_cases hp : p < r.stop
    · simp [hp, Range.contains]
    · simp [hp]

/-- Length of the output of `apply_conditional_map`: the `zip` against the
`range.end`-long mask truncates the result to `min l.length range.end`. -/
theorem apply_conditional_map_length (l : List Int) (r : Range) (f : Int → Int) :
    (apply_conditional_map l r f).length = min l.length r.stop := by
  simp [apply_conditional_map, iter_mask]

/-! ## Claim theorems -/

/-- Claim C1, counterexample: on the buffer with one channel and samples
`[1, 2, 3]`, transforming over the range `[0, 1)` with the identity
function yields a buffer of length 1, not length 3 — `conditional_map`
does not preserve the length, because `zip` truncates the samples to the
`range.end`-long mask. -/
theorem conditional_map_shrinks_length :
    ¬ (((SoundData.mk ⟨1, 8000⟩ [1, 2, 3]).conditional_map ⟨0, 1⟩ fun x => x).1.samples.length
        = (SoundData.mk ⟨1, 8000⟩ [1, 2, 3]).samples.length) := by
  decide

/-- Claim C1, amended: `conditional_map` returns a buffer with the same
format as `B` whose length is `min |B| range.end` (so the length is only
preserved when `range.end ≥ |B|`); every surviving flat position `p` holds
`f(B[p])` when `p ∈ [range.start, range.end)` and `B[p]` otherwise. -/
theorem conditional_map_characterization (s : SoundData) (r : Range) (f : Int → Int) :
    (s.conditional_map r f).1.wav_settings = s.wav_settings ∧
    (s.conditional_map r f).1.samples.length = min s.samples.length r.stop ∧
    ∀ p : Nat, (s.conditional_map r f).1.samples.get? p =
      (s.samples.get? p).bind fun v =>
        if p < r.stop then some (if r.start ≤ p then f v else v) else none :=
  ⟨rfl, apply_conditional_map_length s.samples r f,
    fun p => apply_conditional_map_get? s.samples r f p⟩

/-- Claim C4, counterexample: transforming the one-channel buffer `[5]`
over the empty range `[0, 0)` returns the empty buffer, not the buffer
unchanged — the identity law fails. -/
theorem conditional_map_empty_range_not_identity :
    ¬ (((SoundData.mk ⟨1, 8000⟩ [5]).conditional_map ⟨0, 0⟩ fun x => x).1
        = SoundData.mk ⟨1, 8000⟩ [5]) := by
  decide

/-- Claim C4, amended: transforming over an empty range `[k, k)` applies
`f` nowhere but truncates: the result keeps `B`'s format and its samples
are `B`'s first `k` samples (all of `B` only when `k ≥ |B|`); in
particular the range `[0, 0)` yields the empty buffer. -/
theorem conditional_map_empty_range_truncates (s : SoundData) (k : Nat) (f : Int → Int) :
    (s.conditional_map ⟨k, k⟩ f).1.wav_settings = s.wav_settings ∧
    (s.conditional_map ⟨k, k⟩ f).1.samples = s.samples.take k := by
  refine ⟨rfl, List.ext fun p => ?_⟩
  rw [show (s.conditional_map ⟨k, k⟩ f).1.samples
        = apply_conditional_map s.samples ⟨k, k⟩ f from rfl]
  rw [apply_conditional_map_get? s.samples ⟨k, k⟩ f p]
  by_cases hp : p < k
  · rw [List.get?_take hp]
    cases s.samples.get? p with
    | none => rfl
    | some v => simp [hp, Nat.not_le.mpr hp]
  · have h1 : (s.samples.take k).get? p = none :=
      List.get?_eq_none.mpr
        (by rw [List.length_take]; exact le_trans (min_le_left _ _) (Nat.not_lt.mp hp))
    rw [h1]
    cases s.samples.get? p with
    | none => rfl
    | some v => simp [hp]

/-- Claim C7: when `range.end` exceeds the buffer length, `conditional_map`
considers only flat positions up to the actual length: the result equals
the transform over the clipped range `[range.start, |B|)` and retains the
buffer's length (no out-of-bounds access, positions of the range beyond
the length have no effect). -/
theorem conditional_map_clipped_by_length (s : SoundData) (r : Range) (f : Int → Int)
    (h : s.samples.length < r.stop) :
    (s.conditional_map r f).1
      = (s.conditional_map ⟨r.start, s.samples.length⟩ f).1 ∧
    (s.conditional_map r f).1.samples.length = s.samples.length := by
  have hs : apply_conditional_map s.samples r f
      = apply_conditional_map s.samples ⟨r.start, s.samples.length⟩ f := by
    apply List.ext
    intro p
    rw [apply_conditional_map_get?, apply_conditional_map_get?]
    cases hl : s.samples.get? p with
    | none => rfl
    | some v =>
      have hp : p < s.samples.length := by
        by_contra hc
        rw [List.get?_eq_none.mpr (Nat.not_lt.mp hc)] at hl
        cases hl
      simp [hp, Nat.lt_trans hp h]
  constructor
  · simp only [SoundData.conditional_map]
    rw [hs]
  · rw [show (s.conditional_map r f).1.samples
        = apply_conditional_map s.samples r f from rfl]
    rw [apply_conditional_map_length]
    exact Nat.min_eq_left (Nat.le_of_lt h)

/-- Claim C7, witness: a two-sample mono buffer transformed over `[1, 5)`
equals its transform over the clipped `[1, 2)` and keeps length 2. -/
theorem conditional_map_clipped_by_length_witness :
    ((2 : Nat) < 5) ∧
    (((SoundData.mk ⟨1, 8000⟩ [1, 2]).conditional_map ⟨1, 5⟩ fun x => x + 1).1
      = ((SoundData.mk ⟨1, 8000⟩ [1, 2]).conditional_map ⟨1, 2⟩ fun x => x + 1).1 ∧
    ((SoundData.mk ⟨1, 8000⟩ [1, 2]).conditional_map ⟨1, 5⟩
        fun x => x + 1).1.samples.length = 2) :=
  ⟨by decide,
    conditional_map_clipped_by_length (SoundData.mk ⟨1, 8000⟩ [1, 2]) ⟨1, 5⟩
      (fun x => x + 1) (by decide)⟩

/-- Claim C8: `conditional_map` is non-destructive — the state of the
receiver after the call (second component of the state-passing embedding)
is exactly the original buffer, format descriptor and sample sequence
included; the Rust body only reads `self`. -/
theorem conditional_map_preserves_original (s : SoundData) (r : Range) (f : Int → Int) :
    (s.conditional_map r f).2 = s := rfl

/-- Claim C5: a `set_sample` whose flat offset
`index * channel_count + channel` is within the current length returns
`true`, keeps the format, stores the new value at that flat offset, and
leaves every other flat position unchanged. -/
theorem set_sample_in_bounds (s : SoundData) (index channel : Nat) (v : Int)
    (h : index * s.wav_settings.channel_count + channel < s.samples.length) :
    (s.set_sample index channel v).1 = true ∧
    (s.set_sample index channel v).2.wav_settings = s.wav_settings ∧
    (s.set_sample index channel v).2.samples.get?
        (index * s.wav_settings.channel_count + channel) = some v ∧
    ∀ p : Nat, p ≠ index * s.wav_settings.channel_count + channel →
      (s.set_sample index channel v).2.samples.get? p = s.samples.get? p := by
  have hset : s.set_sample index channel v
      = (true, SoundData.mk s.wav_settings
          (s.samples.set (index * s.wav_settings.channel_count + channel) v)) := by
    simp [SoundData.set_sample, h]
  rw [hset]
  exact ⟨rfl, rfl, List.get?_set_eq_of_lt v h,
    fun p hp => List.get?_set_ne v s.samples (Ne.symm hp)⟩

/-- Claim C5, witness: writing sample 9 at logical index 1, channel 0 of a
stereo buffer `[1, 2, 3, 4]` (flat offset 2) succeeds, reads back 9, and
leaves the other flat positions unchanged. -/
theorem set_sample_in_bounds_witness :
    (1 * 2 + 0 < 4) ∧
    (((SoundData.mk ⟨2, 44100⟩ [1, 2, 3, 4]).set_sample 1 0 9).1 = true ∧
    ((SoundData.mk ⟨2, 44100⟩ [1, 2, 3, 4]).set_sample 1 0 9).2.wav_settings = ⟨2, 44100⟩ ∧
    ((SoundData.mk ⟨2, 44100⟩ [1, 2, 3, 4]).set_sample 1 0 9).2.samples.get? (1 * 2 + 0)
      = some 9 ∧
    ∀ p : Nat, p ≠ 1 * 2 + 0 →
      ((SoundData.mk ⟨2, 44100⟩ [1, 2, 3, 4]).set_sample 1 0 9).2.samples.get? p
        = (SoundData.mk ⟨2, 44100⟩ [1, 2, 3, 4]).samples.get? p) :=
  ⟨by decide, set_sample_in_bounds (SoundData.mk ⟨2, 44100⟩ [1, 2, 3, 4]) 1 0 9 (by decide)⟩

/-- Claim C6: a `set_sample` whose flat offset is at or beyond the current
length returns `false` and leaves the buffer (length and contents, format
included) completely unchanged. -/
theorem set_sample_out_of_bounds (s : SoundData) (index channel : Nat) (v : Int)
    (h : s.samples.length ≤ index * s.wav_settings.channel_count + channel) :
    (s.set_sample index channel v).1 = false ∧
    (s.set_sample index channel v).2 = s := by
  have hset : s.set_sample index channel v = (false, s) := by
    simp [SoundData.set_sample, Nat.not_lt.mpr h]
  rw [hset]
  exact ⟨rfl, rfl⟩

/-- Claim C6, witness: writing at logical index 5, channel 0 of a
two-sample mono buffer (flat offset 5 ≥ length 2) fails and leaves the
buffer unchanged. -/
theorem set_sample_out_of_bounds_witness :
    ((2 : Nat) ≤ 5 * 1 + 0) ∧
    (((SoundData.mk ⟨1, 8000⟩ [1, 2]).set_sample 5 0 7).1 = false ∧
    ((SoundData.mk ⟨1, 8000⟩ [1, 2]).set_sample 5 0 7).2 = SoundData.mk ⟨1, 8000⟩ [1, 2]) :=
  ⟨by decide, set_sample_out_of_bounds (SoundData.mk ⟨1, 8000⟩ [1, 2]) 5 0 7 (by decide)⟩

/-- Claim C2: evaluating the header computation at a buffer of 100
interleaved samples (channels = 1, rate = 8000): `WavFile::new` passes the
sample count (100) — not the serialized byte size — as `file_size`, so the
resulting `data_size` is `100 - 44 = 56`, not `N * 2 = 200` as claimed. -/
theorem data_size_not_twice_sample_count :
    (WavFile.new (SoundData.mk ⟨1, 8000⟩ (List.replicate 100 0))).header.data_size = 56 ∧
    (56 : Nat) ≠ 100 * 2 := by
  exact ⟨rfl, by decide⟩

/-- Claim C3: evaluating the header computation at an empty buffer: the
`u32` subtraction `file_size - HEADER_SIZE` is `0 - 44`, which underflows
and wraps to `2^32 - 44 = 4294967252` (a debug build panics instead); the
claimed `data_size == 0` does not hold. -/
theorem data_size_underflow_on_empty :
    (WavFile.new (SoundData.mk ⟨1, 8000⟩ [])).header.data_size = 4294967252 ∧
    (4294967252 : Nat) ≠ 0 := by
  exact ⟨rfl, by decide⟩

/-- Claim C9: the bytes a successful export appends to its destination are
a deterministic function of the `WavFile` record alone — exporting the
same record to two independent destinations appends the same byte
sequence. -/
theorem export_deterministic (w : WavFile) (d1 d2 : List Nat) :
    (w.exportTo d1).drop d1.length = (w.exportTo d2).drop d2.length := by
  simp [WavFile.exportTo]

/-- Claim C10: `set_sample` never checks `channel < channel_count`: on a
stereo buffer of four samples, writing at logical index 0 with channel 3
(≥ channel_count = 2) computes flat offset 3, which is in bounds, so the
call succeeds — and the write lands in flat position 3, which belongs to
logical frame `3 / 2 = 1`, not frame 0. -/
theorem set_sample_ignores_channel_bound :
    ((SoundData.mk ⟨2, 44100⟩ [10, 11, 12, 13]).set_sample 0 3 99).1 = true ∧
    (SoundData.mk ⟨2, 44100⟩ [10, 11, 12, 13]).wav_settings.channel_count ≤ 3 ∧
    (0 * 2 + 3) / 2 ≠ 0 ∧
    ((SoundData.mk ⟨2, 44100⟩ [10, 11, 12, 13]).set_sample 0 3 99).2.samples
      = [10, 11, 12, 99] := by
  decide

end BrieDaw
